import Mathlib

/-!
Verification development for the nodejs-blog-frontend repository.

The definitions below are a shallow embedding of the TypeScript source:
  * `src/src/components/BlogComment.tsx` — the nested comment tree renderer
    (`CommentItem`), the reply handler `handleReply`, the comment composer
    handler `handleAddComment`, and the report-success message logic.
  * `src/src/lib/api.ts` — the API adapter: `resolveAssetUrl`,
    `setRateLimitHandler`, `apiRequest`, `transformComment`.

Effects are made explicit: a handler invocation becomes a value in a returned
list, a network send becomes a constructor of an action type, the JSX output
of the renderer becomes a tree of `Rendered` nodes.
-/

set_option maxRecDepth 16384

namespace BlogFE

/-- Moderation status of a comment: `'active' | 'pending_review' | 'hidden' | 'deleted'`
(field `status` of `Comment` in api.ts). -/
inductive CStatus where
  | active
  | pending_review
  | hidden
  | deleted
deriving DecidableEq, Repr

/-- `CommentAuthor` from api.ts: `{ id, name, username, avatar: string | null }`. -/
structure CommentAuthor where
  id : String
  name : String
  username : String
  avatar : Option String
deriving DecidableEq, Repr

/-- The `moderated_by` object of a comment in api.ts. -/
structure ModeratedBy where
  id : String
  name : String
  username : String
deriving DecidableEq, Repr

/-- The scalar fields of a `Comment` (api.ts), everything except `replies`.
`is_auto_flagged`, `moderated_by`, `moderated_at`, `moderation_reason` are the
optional fields of the interface. -/
structure CommentFields where
  id : String
  author : CommentAuthor
  content : String
  depth : Nat
  status : CStatus
  spam_report_count : Nat
  is_auto_flagged : Option Bool
  createdAt : String
  updatedAt : String
  canReply : Bool
  moderated_by : Option ModeratedBy
  moderated_at : Option String
  moderation_reason : Option String
deriving DecidableEq, Repr

/-- A comment tree node.  `replies` is `Option (List Comment)`: `none` models a
runtime value that is not an array (the `Array.isArray` guard in
`transformComment`), `some l` an array of children in reply order. -/
inductive Comment where
  | mk (fields : CommentFields) (replies : Option (List Comment))
deriving Repr

def Comment.fields : Comment → CommentFields
  | .mk f _ => f

def Comment.replies : Comment → Option (List Comment)
  | .mk _ r => r

/-- The viewer, as exposed by `useAuth()`: `none` is an unauthenticated viewer
(`isAuthenticated` false, `user` null), `some uid` an authenticated viewer
whose `user.id` is `uid`. -/
abbrev Viewer := Option String

/-- `isOwner = isAuthenticated && user && user.id === comment.author.id`
(BlogComment.tsx line 57). -/
def isOwner (v : Viewer) (f : CommentFields) : Bool :=
  match v with
  | some uid => uid == f.author.id
  | none => false

/-- A rendered comment node: the text shown in the content paragraph and the
rendered children, in order.  `CommentItem` returning `null` is modelled as
`none` from `renderComment`. -/
inductive Rendered where
  | node (content : String) (children : List Rendered)
deriving Repr

/-- The content paragraph of `CommentItem` (BlogComment.tsx lines 170-180):
placeholder text for deleted and hidden comments, the comment content
otherwise. -/
def shownContent (f : CommentFields) : String :=
  match f.status with
  | .deleted => "[Comment deleted by user]"
  | .hidden => "[Comment hidden by moderator]"
  | _ => f.content

mutual

/-- `CommentItem` (BlogComment.tsx): returns `null` when
`comment.status === 'hidden' && !isOwner` (lines 132-136) — note this happens
before the replies are rendered — and otherwise a node showing
`shownContent` with the recursively rendered replies (lines 305-318, with the
initial `showReplies = true` state). -/
def renderComment (v : Viewer) : Comment → Option Rendered
  | .mk f rs =>
    if f.status = CStatus.hidden ∧ isOwner v f = false then none
    else some (Rendered.node (shownContent f) (renderReplies v rs))

/-- The `replies` field as rendered: a non-array or empty `replies` produces no
children (`hasReplies` is false and the map is not reached). -/
def renderReplies (v : Viewer) : Option (List Comment) → List Rendered
  | none => []
  | some l => renderList v l

/-- Renders a list of sibling comments in order, dropping the nodes for which
`CommentItem` returns `null`. -/
def renderList (v : Viewer) : List Comment → List Rendered
  | [] => []
  | c :: cs =>
    match renderComment v c with
    | none => renderList v cs
    | some r => r :: renderList v cs

end

/-- JavaScript `String.prototype.trim()`: strip whitespace from both ends. -/
def jsTrim (s : String) : String :=
  ⟨((s.data.dropWhile Char.isWhitespace).reverse.dropWhile Char.isWhitespace).reverse⟩

/-- JavaScript `String.prototype.startsWith(p)`. -/
def jsStartsWith (s p : String) : Bool :=
  s.data.take p.data.length == p.data

/-- The result of a submit handler: either a local validation error shown as a
toast (no network request is issued), or a mutation is fired sending
`content` to the backend. -/
inductive SubmitAction where
  | localError (msg : String)
  | send (content : String)
deriving DecidableEq, Repr

/-- `handleReply` (BlogComment.tsx lines 112-122): empty-after-trim text and
text longer than 500 characters are rejected locally; otherwise
`replyMutation.mutate(replyText.trim())` fires. -/
def handleReply (replyText : String) : SubmitAction :=
  if jsTrim replyText = "" then .localError ("Please enter a reply")
  else if replyText.length > 500 then .localError ("Reply cannot exceed 500 characters")
  else .send (jsTrim replyText)

/-- `handleAddComment` (BlogComment.tsx lines 420-434): an unauthenticated
viewer is rejected with a login prompt before any other check; then the same
trim/length validation as replies; otherwise
`createMutation.mutate(newComment.trim())` fires. -/
def handleAddComment (isAuthenticated : Bool) (newComment : String) : SubmitAction :=
  if !isAuthenticated then .localError ("Please login to comment")
  else if jsTrim newComment = "" then .localError ("Please enter a comment")
  else if newComment.length > 500 then .localError ("Comment cannot exceed 500 characters")
  else .send (jsTrim newComment)

/-- `canReply` gate of `CommentItem` (BlogComment.tsx line 59): the Reply
button and reply box are rendered only when
`comment.canReply && isAuthenticated && comment.status === 'active'`. -/
def canReplyGate (v : Viewer) (f : CommentFields) : Bool :=
  f.canReply && v.isSome && decide (f.status = CStatus.active)

/-- What the Reply button's onClick does (BlogComment.tsx lines 188-194):
an unauthenticated click shows a login prompt and returns; otherwise it
toggles the reply box. -/
inductive ReplyClick where
  | loginPrompt
  | toggleReplyBox
deriving DecidableEq, Repr

def onReplyClick (isAuthenticated : Bool) : ReplyClick :=
  if !isAuthenticated then .loginPrompt else .toggleReplyBox

/-- The payload `reportComment` returns on success (api.ts lines 748-755):
`{ status: string, spam_report_count: number }`. -/
structure ReportPayload where
  status : String
  spam_report_count : Nat
deriving DecidableEq, Repr

/-- `ApiResponse<T>` of api.ts: `{ data?: T; error?: string }`. -/
structure ApiResult (α : Type) where
  data : Option α := none
  error : Option String := none
deriving DecidableEq, Repr

/-- The toast text chosen by `reportMutation.onSuccess` (BlogComment.tsx
lines 95-102): a ternary chain on `data.data?.status` and
`data.data?.spam_report_count`. -/
def reportSuccessMessage (result : ApiResult ReportPayload) : String :=
  match result.data with
  | some d =>
    if d.status = "hidden" then "Comment has been hidden due to multiple reports"
    else if d.spam_report_count = 3 then "Comment flagged for review"
    else "Comment reported successfully"
  | none => "Comment reported successfully"

/-! ## API adapter (src/src/lib/api.ts) -/

/-- A JavaScript number as produced by `parseInt`: an integer or NaN. -/
inductive JsNumber where
  | nan
  | int (i : Int)
deriving DecidableEq, Repr

/-- `parseInt(s, 10)`: skip leading whitespace, an optional sign, then the
longest digit run; NaN when no digits follow. -/
def parseIntJs (s : String) : JsNumber :=
  let cs := s.data.dropWhile Char.isWhitespace
  let signed : Int × List Char :=
    match cs with
    | '-' :: r => (-1, r)
    | '+' :: r => (1, r)
    | r => (1, r)
  let ds := signed.2.takeWhile Char.isDigit
  if ds.isEmpty then JsNumber.nan
  else JsNumber.int (signed.1 * ((ds.foldl (fun n c => n * 10 + (c.toNat - 48)) 0 : Nat) : Int))

/-- The backend envelope (api.ts `BackendResponse<T>`), as seen after JSON
decoding.  `message`/`error` are `some s` exactly when the runtime value of
the field is the string `s` (the `typeof x === 'string'` checks). -/
structure BackendResponse (α : Type) where
  success : Bool
  message : Option String
  data : Option α
  error : Option String
deriving DecidableEq, Repr

/-- Outcome of the `fetch` call inside `apiRequest`: a thrown
transport/network failure, or an HTTP response with a status code, the
`Retry-After` header value, and a decoded JSON body (`none` when
`response.json()` rejects). -/
inductive FetchOutcome (α : Type) where
  | networkError
  | response (status : Nat) (retryAfterHeader : Option String) (body : Option (BackendResponse α))
deriving DecidableEq, Repr

/-- One invocation of a rate-limit handler: the handler's identity and the
`retryAfter` argument it receives (`none` models `undefined`). -/
abbrev RateLimitCall := Nat × Option JsNumber

/-- `setRateLimitHandler` (api.ts lines 23-25): overwrites the single module
level `rateLimitHandler` variable, regardless of the previous state.
Handlers are identified by a `Nat`. -/
def setRateLimitHandler (handler : Nat) (_state : Option Nat) : Option Nat :=
  some handler

/-- `response.ok`: status in the range 200-299. -/
def respOk (status : Nat) : Bool :=
  decide (200 ≤ status ∧ status < 300)

/-- The template literal fallback message of apiRequest. -/
def statusErrorText (status : Nat) : String :=
  "Error: " ++ toString status

/-- JS string truthiness as used in the `a || b || c` chain of apiRequest:
a string survives only when non-empty. -/
def truthyStr : Option String → Option String
  | some s => if s ≠ "" then some s else none
  | none => none

/-- `retryAfterHeader ? parseInt(retryAfterHeader, 10) : undefined`: the
argument passed to the rate-limit handler.  `none` is `undefined` (header
absent, or present but the empty string, which is falsy). -/
def retryAfterValue : Option String → Option JsNumber
  | some h => if h ≠ "" then some (parseIntJs h) else none
  | none => none

/-- `apiRequest` (api.ts lines 110-168), from the `fetch` outcome on: the
429 interception calling the registered rate-limit handler, the decode
failure fallback envelope, the `!response.ok || !responseData.success` error
branch with its `message || error || template` chain, and the success result
carrying `responseData.data`.  Returns the `ApiResponse` together with the
list of rate-limit handler invocations performed. -/
def apiRequest {α : Type} (rateLimitHandler : Option Nat) (outcome : FetchOutcome α) :
    ApiResult α × List RateLimitCall :=
  match outcome with
  | .networkError => ({ error := some ("Network error. Please try again.") }, [])
  | .response status retryAfterHeader body =>
    if status = 429 then
      ({ error := some ("Too many requests. Please slow down and try again.") },
       match rateLimitHandler with
       | some hId => [(hId, retryAfterValue retryAfterHeader)]
       | none => [])
    else
      let responseData : BackendResponse α :=
        match body with
        | some b => b
        | none =>
          { success := false, message := some ("Invalid response format"),
            data := none, error := none }
      if !(respOk status) || !responseData.success then
        let errorMessage : String :=
          match truthyStr responseData.message with
          | some m => m
          | none =>
            match truthyStr responseData.error with
            | some e => e
            | none => statusErrorText status
        ({ error := some errorMessage }, [])
      else
        ({ data := responseData.data }, [])

/-- `resolveAssetUrl` (api.ts lines 3-13).  The browser's URL constructor
`new URL(u, base).toString()` is modelled by the parameter `urlResolve`,
which returns `none` exactly when the constructor throws.  `assetUrl = none`
models an `undefined` argument; an empty string and `undefined` are both
falsy, as is an unset or empty `API_BASE_URL` (`base`). -/
def resolveAssetUrl (urlResolve : String → String → Option String) (base : Option String)
    (assetUrl : Option String) : String :=
  match assetUrl with
  | none => ""
  | some u =>
    if u = "" then ""
    else if jsStartsWith u ("http://") || jsStartsWith u ("https://") then u
    else
      match base with
      | none => u
      | some b =>
        if b = "" then u
        else
          match urlResolve u b with
          | some r => r
          | none => u

mutual

/-- `transformComment` (api.ts lines 602-613): spreads the comment, replacing
only `author.avatar` (resolved via `resolveAssetUrl` when truthy, `null`
otherwise) and `replies` (recursively mapped when an array, `[]` when not). -/
def transformComment (urlResolve : String → String → Option String) (base : Option String) :
    Comment → Comment
  | .mk f rs =>
    Comment.mk
      { f with author :=
          { f.author with avatar :=
              match f.author.avatar with
              | some s =>
                if s ≠ "" then some (resolveAssetUrl urlResolve base (some s)) else none
              | none => none } }
      (some (transformReplies urlResolve base rs))

/-- `Array.isArray(comment.replies) ? comment.replies.map(transformComment) : []`. -/
def transformReplies (urlResolve : String → String → Option String) (base : Option String) :
    Option (List Comment) → List Comment
  | none => []
  | some l => transformList urlResolve base l

def transformList (urlResolve : String → String → Option String) (base : Option String) :
    List Comment → List Comment
  | [] => []
  | c :: cs => transformComment urlResolve base c :: transformList urlResolve base cs

end

/-! ## Sample data used by witnesses and counterexamples -/

def sampleAuthor : CommentAuthor :=
  { id := "a1", name := "Alice", username := "alice", avatar := none }

def activeFields : CommentFields :=
  { id := "c1", author := sampleAuthor, content := "child content", depth := 1,
    status := CStatus.active, spam_report_count := 0, is_auto_flagged := none,
    createdAt := "2024-01-01", updatedAt := "2024-01-01", canReply := true,
    moderated_by := none, moderated_at := none, moderation_reason := none }

def hiddenFields : CommentFields :=
  { activeFields with
    id := "c0",
    content := "parent content",
    depth := 0,
    status := CStatus.hidden }

def childActive : Comment := Comment.mk activeFields (some [])

def hiddenParent : Comment := Comment.mk hiddenFields (some [childActive])

/-- An authenticated viewer whose id differs from `sampleAuthor`'s id. -/
def otherViewer : Viewer := some ("v2")

/-! ## Claims -/

/-- C1: for every comment node, if its status is `hidden` and the viewer's id
does not equal the comment's author id, `CommentItem` renders nothing for
that node; if the viewer is the author, the node is rendered with the
placeholder text in place of its content. -/
theorem C1_hidden_render (v : Viewer) (f : CommentFields) (rs : Option (List Comment))
    (hst : f.status = CStatus.hidden) :
    ((∀ uid, v = some uid → uid ≠ f.author.id) →
      renderComment v (Comment.mk f rs) = none) ∧
    (v = some f.author.id →
      renderComment v (Comment.mk f rs) =
        some (Rendered.node ("[Comment hidden by moderator]") (renderReplies v rs))) := by
  constructor
  · intro hne
    have hown : isOwner v f = false := by
      cases v with
      | none => rfl
      | some uid => simpa [isOwner] using hne uid rfl
    simp [renderComment, hst, hown]
  · intro hv
    have hown : isOwner v f = true := by
      subst hv; simp [isOwner]
    simp [renderComment, hst, hown, shownContent]

/-- Witness for C1 at a concrete hidden comment: a different authenticated
viewer sees nothing, the author sees the placeholder node. -/
theorem C1_hidden_render_witness :
    renderComment otherViewer (Comment.mk hiddenFields none) = none ∧
    renderComment (some (sampleAuthor.id)) (Comment.mk hiddenFields none) =
      some (Rendered.node ("[Comment hidden by moderator]") []) := by
  constructor
  · exact (C1_hidden_render otherViewer hiddenFields none rfl).1
      (by intro uid h hq; rw [hq] at h; exact absurd h (by decide))
  · have h2 := (C1_hidden_render (some (sampleAuthor.id)) hiddenFields none rfl).2 rfl
    simpa [renderReplies] using h2

/-- C2 counterexample: the hidden-node rule does short-circuit descendants.
`hiddenParent` is hidden and has the active child `childActive`; for the
non-author viewer the whole subtree renders to nothing, even though the same
per-node rule renders the child on its own. -/
theorem C2_counterexample :
    renderComment otherViewer hiddenParent = none ∧
    renderComment otherViewer childActive = some (Rendered.node ("child content") []) :=
  ⟨rfl, rfl⟩

/-- C2 (amended): when a hidden comment is omitted for a viewer who is not
its author, its entire subtree is omitted: the replies are never processed,
whatever they contain. -/
theorem C2_hidden_subtree_omitted (v : Viewer) (f : CommentFields) (rs : Option (List Comment))
    (hst : f.status = CStatus.hidden) (hown : isOwner v f = false) :
    renderComment v (Comment.mk f rs) = none := by
  simp [renderComment, hst, hown]

/-- Witness for the amended C2: the concrete hidden parent with an active
child renders to nothing for a non-author viewer. -/
theorem C2_hidden_subtree_omitted_witness :
    renderComment otherViewer hiddenParent = none :=
  C2_hidden_subtree_omitted otherViewer hiddenFields (some [childActive]) rfl rfl

/-- C3: a 429 response with header `Retry-After: 30` invokes the registered
rate-limit handler with the parsed integer 30 — and with `undefined` when
the header is absent — and returns the fixed generic too-many-requests
error; the result is independent of the backend response body, whose content
is never used. -/
theorem C3_rate_limit_429 {α : Type} (hId : Nat) (body other : Option (BackendResponse α))
    (ra : Option String) :
    apiRequest (some hId) (FetchOutcome.response 429 (some ("30")) body) =
      ({ error := some ("Too many requests. Please slow down and try again."), data := none },
        [(hId, some (JsNumber.int 30))]) ∧
    apiRequest (some hId) (FetchOutcome.response 429 none body) =
      ({ error := some ("Too many requests. Please slow down and try again."), data := none },
        [(hId, none)]) ∧
    apiRequest (some hId) (FetchOutcome.response 429 ra body) =
      apiRequest (some hId) (FetchOutcome.response 429 ra other) :=
  ⟨rfl, rfl, rfl⟩

/-- C4 counterexample: with `success: false` and `message` equal to the
empty string — which is a string — the adapter does not return the message:
the JS `message || error || template` chain treats the empty string as falsy
and falls through to the status template. -/
theorem C4_counterexample :
    (apiRequest (α := Unit) none (FetchOutcome.response 200 none
        (some { success := false, message := some (""), data := none, error := none }))).1.error ≠
      some ("") ∧
    (apiRequest (α := Unit) none (FetchOutcome.response 200 none
        (some { success := false, message := some (""), data := none, error := none }))).1.error =
      some ("Error: 200") :=
  ⟨by decide, rfl⟩

/-- C4 (amended): for every envelope with `success` false and `message` a
non-empty string X, the adapter returns error X exactly, with no further
transformation; and it returns an error result — it never throws — on any
non-success envelope, transport failure, or decode failure. -/
theorem C4_error_passthrough {α : Type} (s : Option Nat) (st : Nat) (ra : Option String)
    (X : String) (d : Option α) (e : Option String)
    (hst : st ≠ 429) (hX : X ≠ "") :
    (apiRequest s (FetchOutcome.response st ra
        (some { success := false, message := some X, data := d, error := e }))).1 =
      { data := none, error := some X } ∧
    (apiRequest (α := α) s FetchOutcome.networkError).1.error.isSome = true ∧
    (apiRequest (α := α) s (FetchOutcome.response st ra none)).1.error.isSome = true ∧
    (∀ b : BackendResponse α, b.success = false →
      (apiRequest s (FetchOutcome.response st ra (some b))).1.error.isSome = true) := by
  refine ⟨?_, rfl, ?_, ?_⟩
  · simp [apiRequest, hst, truthyStr, hX]
  · simp [apiRequest, hst, truthyStr]
  · intro b hb
    simp [apiRequest, hst, hb]

/-- Witness for the amended C4: a concrete failed envelope, transport
failure, decode failure, and non-success envelope. -/
theorem C4_error_passthrough_witness :
    (apiRequest (α := Unit) none (FetchOutcome.response 200 none
        (some { success := false, message := some ("X"), data := none, error := none }))).1 =
      { data := none, error := some ("X") } ∧
    (apiRequest (α := Unit) none FetchOutcome.networkError).1.error.isSome = true ∧
    (apiRequest (α := Unit) none (FetchOutcome.response 200 none none)).1.error.isSome = true ∧
    (apiRequest (α := Unit) none (FetchOutcome.response 500 none
        (some { success := false, message := none, data := none,
                error := none }))).1.error.isSome = true := by
  obtain ⟨h1, h2, h3, _⟩ := C4_error_passthrough (α := Unit) none 200 none ("X") none none
    (by decide) (by decide)
  exact ⟨h1, h2, h3,
    (C4_error_passthrough (α := Unit) none 500 none ("X") none none
      (by decide) (by decide)).2.2.2 _ rfl⟩

/-- C5: a reply whose content has length 501 is rejected locally — no send
ever happens; content of length 500 that is non-empty after trimming passes
local validation and the trimmed text is sent; content empty after trimming
is rejected locally. -/
theorem C5_reply_validation (s : String) :
    (s.length = 501 → ∀ c, handleReply s ≠ SubmitAction.send c) ∧
    (s.length = 500 → jsTrim s ≠ "" → handleReply s = SubmitAction.send (jsTrim s)) ∧
    (jsTrim s = "" → handleReply s = SubmitAction.localError ("Please enter a reply")) := by
  refine ⟨?_, ?_, ?_⟩
  · intro h c
    unfold handleReply
    by_cases ht : jsTrim s = ""
    · simp [ht]
    · simp [ht, h]
  · intro h ht
    unfold handleReply
    simp [ht, h]
  · intro ht
    simp [handleReply, ht]

def s501 : String := String.mk (List.replicate 501 'a')

def s500 : String := String.mk (List.replicate 500 'a')

/-- Witness for C5 at concrete inputs of length 501, length 500 and
whitespace-only content. -/
theorem C5_reply_validation_witness :
    handleReply s501 ≠ SubmitAction.send ("a") ∧
    handleReply s500 = SubmitAction.send (jsTrim s500) ∧
    handleReply ("  ") = SubmitAction.localError ("Please enter a reply") :=
  ⟨(C5_reply_validation s501).1 (by decide) ("a"),
   (C5_reply_validation s500).2.1 (by decide) (by decide),
   (C5_reply_validation ("  ")).2.2 (by decide)⟩

/-- C6: for an unauthenticated viewer, submitting a comment is rejected
locally with a login prompt before any mutation fires; the reply affordance
(button and reply box) is not rendered at all because the `canReply` gate is
false, and even the Reply button's click handler only shows a login prompt.
So no comment-creation or reply POST can occur. -/
theorem C6_unauthenticated_local_reject (text : String) (f : CommentFields) :
    handleAddComment false text = SubmitAction.localError ("Please login to comment") ∧
    canReplyGate none f = false ∧
    onReplyClick false = ReplyClick.loginPrompt := by
  refine ⟨rfl, ?_, rfl⟩
  simp [canReplyGate]

/-- C7: on a successful report, the toast text depends only on the payload
— status and spam_report_count — that the backend returned for this report
(not on any other part of the result), and the hidden-comment message is
chosen exactly when the returned status is the string hidden: hidden-ness is
trusted from the backend state, never inferred from the count. -/
theorem C7_report_message (r1 r2 : ApiResult ReportPayload) (p : ReportPayload)
    (hdata : r1.data = r2.data) :
    reportSuccessMessage r1 = reportSuccessMessage r2 ∧
    (r1.data = some p →
      (reportSuccessMessage r1 = "Comment has been hidden due to multiple reports" ↔
        p.status = "hidden")) := by
  constructor
  · unfold reportSuccessMessage
    rw [hdata]
  · intro h1
    unfold reportSuccessMessage
    rw [h1]
    by_cases hs : p.status = "hidden"
    · simp [hs]
    · by_cases hc : p.spam_report_count = 3 <;> simp [hs, hc]

/-- Witness for C7: two results carrying the same payload but different
error fields produce the same message, and the hidden payload produces the
hidden message. -/
theorem C7_report_message_witness :
    reportSuccessMessage
        { data := some { status := "hidden", spam_report_count := 0 }, error := none } =
      reportSuccessMessage
        { data := some { status := "hidden", spam_report_count := 0 }, error := some ("boom") } ∧
    reportSuccessMessage
        { data := some { status := "hidden", spam_report_count := 0 }, error := none } =
      "Comment has been hidden due to multiple reports" := by
  obtain ⟨h1, h2⟩ := C7_report_message
    { data := some { status := "hidden", spam_report_count := 0 }, error := none }
    { data := some { status := "hidden", spam_report_count := 0 }, error := some ("boom") }
    { status := "hidden", spam_report_count := 0 } rfl
  exact ⟨h1, (h2 rfl).2 rfl⟩

/-- C8: an asset URL that is already absolute is returned unchanged; a
relative one is resolved against the configured base URL; when resolution
fails, or when no base URL is configured (unset or empty), the original
relative value comes back. -/
theorem C8_resolve_asset_url (urlResolve : String → String → Option String)
    (base : Option String) (u b r : String) :
    ((jsStartsWith u ("http://") || jsStartsWith u ("https://")) = true →
      resolveAssetUrl urlResolve base (some u) = u) ∧
    (u ≠ "" → (jsStartsWith u ("http://") || jsStartsWith u ("https://")) = false →
      b ≠ "" → urlResolve u b = some r →
      resolveAssetUrl urlResolve (some b) (some u) = r) ∧
    (u ≠ "" → (jsStartsWith u ("http://") || jsStartsWith u ("https://")) = false →
      b ≠ "" → urlResolve u b = none →
      resolveAssetUrl urlResolve (some b) (some u) = u) ∧
    resolveAssetUrl urlResolve none (some u) = u ∧
    resolveAssetUrl urlResolve (some ("")) (some u) = u := by
  refine ⟨?_, ?_, ?_, ?_, ?_⟩
  · intro habs
    by_cases hu : u = ""
    · subst hu; exact absurd habs (by decide)
    · simp [resolveAssetUrl, hu, habs]
  · intro hu hna hb hres
    simp [resolveAssetUrl, hu, hna, hb, hres]
  · intro hu hna hb hres
    simp [resolveAssetUrl, hu, hna, hb, hres]
  · by_cases hu : u = ""
    · simp [resolveAssetUrl, hu]
    · by_cases habs : (jsStartsWith u ("http://") || jsStartsWith u ("https://")) = true
      · simp [resolveAssetUrl, hu, habs]
      · simp [resolveAssetUrl, hu, habs]
  · by_cases hu : u = ""
    · simp [resolveAssetUrl, hu]
    · by_cases habs : (jsStartsWith u ("http://") || jsStartsWith u ("https://")) = true
      · simp [resolveAssetUrl, hu, habs]
      · simp [resolveAssetUrl, hu, habs]

/-- Witness for C8: a concrete absolute URL, a successful resolution, a
failed resolution, and a missing base. -/
theorem C8_resolve_asset_url_witness :
    resolveAssetUrl (fun _ _ => none) (some ("http://api.example"))
        (some ("https://cdn.example/x.png")) = "https://cdn.example/x.png" ∧
    resolveAssetUrl (fun u b => some (b ++ u)) (some ("http://api.example/"))
        (some ("x.png")) = "http://api.example/x.png" ∧
    resolveAssetUrl (fun _ _ => none) (some ("http://api.example/"))
        (some ("x.png")) = "x.png" ∧
    resolveAssetUrl (fun _ _ => none) none (some ("x.png")) = "x.png" := by
  refine ⟨?_, ?_, ?_, ?_⟩
  · exact (C8_resolve_asset_url (fun _ _ => none) (some ("http://api.example"))
      ("https://cdn.example/x.png") ("") ("")).1 (by decide)
  · exact (C8_resolve_asset_url (fun u b => some (b ++ u)) none
      ("x.png") ("http://api.example/") ("http://api.example/x.png")).2.1
      (by decide) (by decide) (by decide) rfl
  · exact (C8_resolve_asset_url (fun _ _ => none) none
      ("x.png") ("http://api.example/") ("")).2.2.1
      (by decide) (by decide) (by decide) rfl
  · exact (C8_resolve_asset_url (fun _ _ => none) none ("x.png") ("") ("")).2.2.2.1

/-- The module-level `rateLimitHandler` variable after a sequence of
`setRateLimitHandler` calls, starting from state `s0`. -/
def applyHandlers (s0 : Option Nat) (hs : List Nat) : Option Nat :=
  hs.foldl (fun s h => setRateLimitHandler h s) s0

lemma applyHandlers_getLast (s0 : Option Nat) (hs : List Nat) (h : Nat)
    (hlast : hs.getLast? = some h) : applyHandlers s0 hs = some h := by
  induction hs generalizing s0 with
  | nil => cases hlast
  | cons a t ih =>
    cases t with
    | nil =>
      simp only [List.getLast?_singleton, Option.some.injEq] at hlast
      simp [applyHandlers, setRateLimitHandler, hlast]
    | cons b u =>
      rw [List.getLast?_cons_cons] at hlast
      simpa [applyHandlers] using ih (some a) hlast

/-- C9: at most one rate-limit handler is registered and registration is
last-write-wins: after any non-empty sequence of `setRateLimitHandler`
calls the state holds exactly the last handler, and a subsequent 429
response invokes that handler only. -/
theorem C9_last_write_wins {α : Type} (s0 : Option Nat) (hs : List Nat) (h : Nat)
    (ra : Option String) (body : Option (BackendResponse α))
    (hlast : hs.getLast? = some h) :
    applyHandlers s0 hs = some h ∧
    (apiRequest (applyHandlers s0 hs) (FetchOutcome.response 429 ra body)).2 =
      [(h, retryAfterValue ra)] := by
  have key := applyHandlers_getLast s0 hs h hlast
  refine ⟨key, ?_⟩
  rw [key]
  rfl

/-- Witness for C9: three successive registrations; the 429 invokes only the
third handler. -/
theorem C9_last_write_wins_witness :
    applyHandlers none [1, 2, 3] = some 3 ∧
    (apiRequest (α := Unit) (applyHandlers none [1, 2, 3])
        (FetchOutcome.response 429 (some ("30")) none)).2 =
      [(3, retryAfterValue (some ("30")))] :=
  C9_last_write_wins none [1, 2, 3] 3 (some ("30")) none rfl

lemma transformList_eq_map (urlResolve : String → String → Option String)
    (base : Option String) (l : List Comment) :
    transformList urlResolve base l = l.map (transformComment urlResolve base) := by
  induction l with
  | nil => rfl
  | cons c cs ih => simp [transformList, ih]

/-- C10: `transformComment` changes only the author's avatar — resolved as
an asset URL when truthy, null when null or empty — leaves every other field
of the node unchanged, maps the `replies` array recursively preserving
length and order (it is exactly a `map`), and replaces a non-array `replies`
value with the empty sequence. -/
theorem C10_transform_comment_frame (urlResolve : String → String → Option String)
    (base : Option String) (f : CommentFields) (rs : Option (List Comment)) :
    ((transformComment urlResolve base (Comment.mk f rs)).fields =
      { f with author := { f.author with
          avatar := (transformComment urlResolve base (Comment.mk f rs)).fields.author.avatar } }) ∧
    (∀ s, f.author.avatar = some s → s ≠ "" →
      (transformComment urlResolve base (Comment.mk f rs)).fields.author.avatar =
        some (resolveAssetUrl urlResolve base (some s))) ∧
    ((f.author.avatar = none ∨ f.author.avatar = some ("")) →
      (transformComment urlResolve base (Comment.mk f rs)).fields.author.avatar = none) ∧
    (∀ l, rs = some l →
      (transformComment urlResolve base (Comment.mk f rs)).replies =
        some (l.map (transformComment urlResolve base))) ∧
    (rs = none → (transformComment urlResolve base (Comment.mk f rs)).replies = some []) := by
  refine ⟨rfl, ?_, ?_, ?_, ?_⟩
  · intro s hs hne
    simp [transformComment, Comment.fields, hs, hne]
  · intro hnone
    rcases hnone with hn | hn <;> simp [transformComment, Comment.fields, hn]
  · intro l hl
    subst hl
    simp [transformComment, Comment.replies, transformReplies, transformList_eq_map]
  · intro hn
    subst hn
    rfl

def avatarFields : CommentFields :=
  { activeFields with
    author := { id := "a1", name := "Alice", username := "alice", avatar := some ("a.png") } }

/-- Witness for C10: a concrete comment whose avatar is resolved, whose
replies are mapped, and a non-array replies value replaced by the empty
list. -/
theorem C10_transform_comment_frame_witness :
    ((transformComment (fun u b => some (b ++ u)) (some ("http://api.example/"))
        (Comment.mk avatarFields (some [childActive]))).fields.author.avatar =
      some (resolveAssetUrl (fun u b => some (b ++ u)) (some ("http://api.example/"))
        (some ("a.png")))) ∧
    ((transformComment (fun u b => some (b ++ u)) (some ("http://api.example/"))
        (Comment.mk avatarFields (some [childActive]))).replies =
      some ([childActive].map
        (transformComment (fun u b => some (b ++ u)) (some ("http://api.example/"))))) ∧
    ((transformComment (fun u b => some (b ++ u)) (some ("http://api.example/"))
        (Comment.mk activeFields none)).replies = some []) := by
  obtain ⟨_, h2, _, h4, _⟩ := C10_transform_comment_frame (fun u b => some (b ++ u))
    (some ("http://api.example/")) avatarFields (some [childActive])
  obtain ⟨_, _, _, _, h5⟩ := C10_transform_comment_frame (fun u b => some (b ++ u))
    (some ("http://api.example/")) activeFields none
  exact ⟨h2 ("a.png") rfl (by decide), h4 [childActive] rfl, h5 rfl⟩

end BlogFE
